import Mathlib

/-! Shallow embedding of `src/user/top_artists.rs` from the lastfm-rs repository:
the top-artists request builder and its response resolver (`send`).

The response body is modelled as an abstract JSON value (`Json`), and the
serde-derived deserializers of the structs declared in the source file are
embedded as structural parsers over that value.  Parts of the crate that the
source file uses but that are not shown (the `LastFMError` struct from
`crate::error`, the `User` envelope from `crate::user`, the `add_param!`
macro, and the `Client` transport) are modelled from the spec, as marked on
each definition.
-/

set_option autoImplicit false

namespace LastfmRs

/-- A JSON value, the shallow model of a parsed response body. -/
inductive Json where
  | null : Json
  | bool : Bool → Json
  | num : Int → Json
  | str : String → Json
  | arr : List Json → Json
  | obj : List (String × Json) → Json

/-- First-match field lookup in a JSON object, as serde sees named fields. -/
def jLookup : List (String × Json) → String → Option Json
  | [], _ => none
  | (k, v) :: rest, key => if k = key then some v else jLookup rest key

/-- Whether an `Except`-valued parse succeeded. -/
def isOkE {α : Type} : Except String α → Bool
  | Except.ok _ => true
  | Except.error _ => false

/-- The pagination attributes of `TopArtists` (struct `Attributes` in the
source): all five fields are kept as the raw strings of the wire format. -/
structure Attributes where
  page : String
  total : String
  user : String
  per_page : String
  total_pages : String
deriving DecidableEq

/-- Struct `ArtistAttributes` from the source: the rank, as a raw string. -/
structure ArtistAttributes where
  rank : String
deriving DecidableEq

/-- Struct `Image` from the source: serde-renamed fields `size` and `#text`. -/
structure Image where
  image_size : String
  image_url : String
deriving DecidableEq

/-- Struct `Artist` from the source. -/
structure Artist where
  attrs : ArtistAttributes
  mbid : String
  playcount : String
  name : String
  url : String
  images : List Image
deriving DecidableEq

/-- Struct `TopArtists` from the source: the artist list (serde field
`artist`) and the attributes (serde field `@attr`). -/
structure TopArtists where
  artists : List Artist
  attrs : Attributes
deriving DecidableEq

/-- Modelled from the spec: the `LastFMError` struct of `crate::error` (not
under src/), the service-error envelope carrying a numeric code and a
message (wire fields `error` and `message`). -/
structure LastFMError where
  error : Int
  message : String
deriving DecidableEq

/-- Modelled from the spec: the `User` envelope of `crate::user` (not under
src/).  The success envelope nests the top-artists substructure one level
under the logical owner; its fields are optional, so `send` unwraps the
`top_artists` option after deserializing. -/
structure User where
  top_artists : Option TopArtists

/-- Serde deserializer for `Attributes`: an object whose `page`, `total`,
`user`, `perPage` and `totalPages` fields are all present strings; unknown
fields are ignored. -/
def parseAttributes : Json → Except String Attributes
  | Json.obj f =>
    match jLookup f "page" with
    | some (Json.str page) =>
      match jLookup f "total" with
      | some (Json.str total) =>
        match jLookup f "user" with
        | some (Json.str user) =>
          match jLookup f "perPage" with
          | some (Json.str perPage) =>
            match jLookup f "totalPages" with
            | some (Json.str totalPages) =>
              Except.ok ⟨page, total, user, perPage, totalPages⟩
            | some _ => Except.error "invalid type for field totalPages"
            | none => Except.error "missing field totalPages"
          | some _ => Except.error "invalid type for field perPage"
          | none => Except.error "missing field perPage"
        | some _ => Except.error "invalid type for field user"
        | none => Except.error "missing field user"
      | some _ => Except.error "invalid type for field total"
      | none => Except.error "missing field total"
    | some _ => Except.error "invalid type for field page"
    | none => Except.error "missing field page"
  | _ => Except.error "invalid type: expected struct Attributes"

/-- Serde deserializer for `ArtistAttributes`. -/
def parseArtistAttributes : Json → Except String ArtistAttributes
  | Json.obj f =>
    match jLookup f "rank" with
    | some (Json.str rank) => Except.ok ⟨rank⟩
    | some _ => Except.error "invalid type for field rank"
    | none => Except.error "missing field rank"
  | _ => Except.error "invalid type: expected struct ArtistAttributes"

/-- Serde deserializer for `Image` (serde renames: `size`, `#text`). -/
def parseImage : Json → Except String Image
  | Json.obj f =>
    match jLookup f "size" with
    | some (Json.str size) =>
      match jLookup f "#text" with
      | some (Json.str text) => Except.ok ⟨size, text⟩
      | some _ => Except.error "invalid type for field #text"
      | none => Except.error "missing field #text"
    | some _ => Except.error "invalid type for field size"
    | none => Except.error "missing field size"
  | _ => Except.error "invalid type: expected struct Image"

/-- Element-wise deserialization of a JSON array, failing on the first
element that fails, as serde deserializes a `Vec`. -/
def parseList {α : Type} (p : Json → Except String α) : List Json → Except String (List α)
  | [] => Except.ok []
  | x :: xs =>
    match p x with
    | Except.ok a =>
      match parseList p xs with
      | Except.ok rest => Except.ok (a :: rest)
      | Except.error e => Except.error e
    | Except.error e => Except.error e

/-- Serde deserializer for `Artist`. -/
def parseArtist : Json → Except String Artist
  | Json.obj f =>
    match jLookup f "@attr" with
    | some attrJ =>
      match parseArtistAttributes attrJ with
      | Except.ok attrs =>
        match jLookup f "mbid" with
        | some (Json.str mbid) =>
          match jLookup f "playcount" with
          | some (Json.str playcount) =>
            match jLookup f "name" with
            | some (Json.str name) =>
              match jLookup f "url" with
              | some (Json.str url) =>
                match jLookup f "image" with
                | some (Json.arr imgs) =>
                  match parseList parseImage imgs with
                  | Except.ok images => Except.ok ⟨attrs, mbid, playcount, name, url, images⟩
                  | Except.error e => Except.error e
                | some _ => Except.error "invalid type for field image"
                | none => Except.error "missing field image"
              | some _ => Except.error "invalid type for field url"
              | none => Except.error "missing field url"
            | some _ => Except.error "invalid type for field name"
            | none => Except.error "missing field name"
          | some _ => Except.error "invalid type for field playcount"
          | none => Except.error "missing field playcount"
        | some _ => Except.error "invalid type for field mbid"
        | none => Except.error "missing field mbid"
      | Except.error e => Except.error e
    | none => Except.error "missing field @attr"
  | _ => Except.error "invalid type: expected struct Artist"

/-- Serde deserializer for `TopArtists` (serde renames: `artist`, `@attr`). -/
def parseTopArtists : Json → Except String TopArtists
  | Json.obj f =>
    match jLookup f "artist" with
    | some (Json.arr xs) =>
      match parseList parseArtist xs with
      | Except.ok artists =>
        match jLookup f "@attr" with
        | some attrJ =>
          match parseAttributes attrJ with
          | Except.ok attrs => Except.ok ⟨artists, attrs⟩
          | Except.error e => Except.error e
        | none => Except.error "missing field @attr"
      | Except.error e => Except.error e
    | some _ => Except.error "invalid type for field artist"
    | none => Except.error "missing field artist"
  | _ => Except.error "invalid type: expected struct TopArtists"

/-- Modelled from the spec: serde deserializer for the `LastFMError`
envelope, requiring a numeric `error` code and a string `message`. -/
def parseLastFMError : Json → Except String LastFMError
  | Json.obj f =>
    match jLookup f "error" with
    | some (Json.num code) =>
      match jLookup f "message" with
      | some (Json.str msg) => Except.ok ⟨code, msg⟩
      | some _ => Except.error "invalid type for field message"
      | none => Except.error "missing field message"
    | some _ => Except.error "invalid type for field error"
    | none => Except.error "missing field error"
  | _ => Except.error "invalid type: expected struct LastFMError"

/-- Modelled from the spec: serde deserializer for the `User` envelope (an
object whose optional serde field `topartists` holds the top-artists
substructure; an absent or null field deserializes to `none`). -/
def parseUser : Json → Except String User
  | Json.obj f =>
    match jLookup f "topartists" with
    | none => Except.ok ⟨none⟩
    | some Json.null => Except.ok ⟨none⟩
    | some sub =>
      match parseTopArtists sub with
      | Except.ok ta => Except.ok ⟨some ta⟩
      | Except.error e => Except.error e
  | _ => Except.error "invalid type: expected struct User"

/-- Enum `Period` from the source: the predefined time windows a caller may
request top-artist data for. -/
inductive Period where
  | Overall : Period
  | SevenDays : Period
  | OneMonth : Period
  | ThreeMonths : Period
  | SixMonths : Period
  | TwelveMonths : Period
  | OneYear : Period
deriving DecidableEq

/-- Source `Period::to_string`: the fixed wire token per variant.
`TwelveMonths` and `OneYear` deliberately produce the same token. -/
def Period.to_string : Period → String
  | Period.Overall => "overall"
  | Period.SevenDays => "7day"
  | Period.OneMonth => "1month"
  | Period.ThreeMonths => "3month"
  | Period.SixMonths => "6month"
  | Period.TwelveMonths => "12month"
  | Period.OneYear => "12month"

/-- The pending request accumulated by a `RequestBuilder`: its URL is
modelled as the ordered list of query parameters (method, mandatory
identifiers, and optional parameters). -/
structure RequestSpec where
  params : List (String × String)
deriving DecidableEq

/-- Modelled from the spec: the parameter-set insertion used by the
`add_param!` macro (not under src/) — inserting a key that is already
present overwrites its value, otherwise the pair is appended. -/
def upsert : List (String × String) → String → String → List (String × String)
  | [], k, v => [(k, v)]
  | (k0, v0) :: rest, k, v =>
    if k0 = k then (k, v) :: rest else (k0, v0) :: upsert rest k v

/-- First-match lookup of a query parameter in a request. -/
def getParam (r : RequestSpec) (key : String) : Option String :=
  go r.params
where
  go : List (String × String) → Option String
    | [] => none
    | (k, v) :: rest => if k = key then some v else go rest

/-- Generic optional-parameter setter (the body the `add_param!` macro
expands to, modelled from the spec as insert-or-overwrite). -/
def setParam (r : RequestSpec) (key value : String) : RequestSpec :=
  ⟨upsert r.params key value⟩

/-- Setter `with_limit` from the source (`add_param!(with_limit, limit, usize)`):
the numeric limit is encoded as its decimal string. -/
def with_limit (r : RequestSpec) (limit : Nat) : RequestSpec :=
  setParam r "limit" (toString limit)

/-- Setter `with_period` from the source (`add_param!(with_period, period, Period)`):
the period is encoded via `Period.to_string`. -/
def with_period (r : RequestSpec) (period : Period) : RequestSpec :=
  setParam r "period" period.to_string

/-- Setter `with_page` from the source (`add_param!(with_page, page, usize)`). -/
def with_page (r : RequestSpec) (page : Nat) : RequestSpec :=
  setParam r "page" (toString page)

/-- Source `TopArtists::build`: fixes the remote method name
`user.getTopArtists` and the mandatory `user` parameter into the request URL
at construction (`client.build_url` is modelled from the spec as assembling
the query-parameter list; authentication parameters it adds are external to
the core and omitted). -/
def TopArtists.build (user : String) : RequestSpec :=
  ⟨[("method", "user.getTopArtists"), ("user", user)]⟩

/-- One chained optional-parameter call on the builder. -/
inductive SetterCall where
  | limit : Nat → SetterCall
  | period : Period → SetterCall
  | page : Nat → SetterCall

/-- Apply one setter call to the pending request. -/
def applyCall (r : RequestSpec) : SetterCall → RequestSpec
  | SetterCall.limit n => with_limit r n
  | SetterCall.period p => with_period r p
  | SetterCall.page n => with_page r n

/-- Apply a chain of setter calls in order. -/
def applyCalls (r : RequestSpec) (cs : List SetterCall) : RequestSpec :=
  cs.foldl applyCall r

/-- Modelled from the spec: a transport-level failure returned by the shared
client (`performRequest` yields either a readable body or a transport
failure); its payload is the failure description. -/
structure HttpErr where
  msg : String
deriving DecidableEq

/-- A transport-successful response body, after `serde_json::from_str` is
abstracted to the JSON level: either valid UTF-8 text that is not valid
JSON (carrying the syntax diagnostic serde would report), or a JSON value. -/
inductive BodyText where
  | notJson : String → BodyText
  | json : Json → BodyText

/-- The raw byte stream of a transport-successful response: either bytes
that are not valid UTF-8 (on which `read_to_string(..).unwrap()` panics),
or decodable text. -/
inductive Body where
  | invalidUtf8 : Body
  | text : BodyText → Body

/-- Enum `Error` from `crate::error` as used by `send`; the service-error
variant is modelled from the spec as carrying the code and message of the
`LastFMError` envelope (the source converts it with `.into()`), the parsing
variant carries the decode diagnostic of the failed success-shape parse, and
the HTTP variant carries the transport failure. -/
inductive Error where
  | LastFMError : LastFMError → Error
  | ParsingError : String → Error
  | HTTPError : HttpErr → Error
deriving DecidableEq

/-- Every way a call of `send` can end: a success payload, one of the three
failure kinds, or a panic (an `unwrap` on a failed value, which in Rust
aborts the call without returning any `Result`). -/
inductive SendOutcome where
  | ok : TopArtists → SendOutcome
  | err : Error → SendOutcome
  | panic : String → SendOutcome
deriving DecidableEq

/-- Model of `serde_json::from_str::<LastFMError>` applied to the body text. -/
def from_str_LastFMError : BodyText → Except String LastFMError
  | BodyText.notJson d => Except.error d
  | BodyText.json j => parseLastFMError j

/-- Model of `serde_json::from_str::<User>` applied to the body text. -/
def from_str_User : BodyText → Except String User
  | BodyText.notJson d => Except.error d
  | BodyText.json j => parseUser j

/-- Source `RequestBuilder::<TopArtists>::send`.  The shared
client is modelled from the spec as a function from the accumulated request
to a transport outcome (`client.request(&self.url)`).  On transport success
the body is read to a string (panicking on invalid UTF-8, as the source
`unwrap`s the read), trial-parsed as the `LastFMError` envelope first, then
as the `User` success envelope whose `top_artists` field is `unwrap`ped
(panicking when it is absent); if neither parse succeeds the diagnostic of
the second parse is returned as a `ParsingError`. -/
def send (client : RequestSpec → Except HttpErr Body) (r : RequestSpec) : SendOutcome :=
  match client r with
  | Except.ok response =>
    match response with
    | Body.invalidUtf8 => SendOutcome.panic "stream did not contain valid UTF-8"
    | Body.text body =>
      match from_str_LastFMError body with
      | Except.ok lastm_error => SendOutcome.err (Error.LastFMError lastm_error)
      | Except.error _ =>
        match from_str_User body with
        | Except.ok user =>
          match user.top_artists with
          | some ta => SendOutcome.ok ta
          | none => SendOutcome.panic "called Option::unwrap on a None value"
        | Except.error e => SendOutcome.err (Error.ParsingError e)
  | Except.error err => SendOutcome.err (Error.HTTPError err)

/-- Variant of `send` instrumented with the number of `serde_json::from_str` parse
attempts that the call performs (0, 1 or 2), used to state that a transport
failure short-circuits both trial parses. -/
def sendSteps (client : RequestSpec → Except HttpErr Body) (r : RequestSpec) : SendOutcome × Nat :=
  match client r with
  | Except.ok response =>
    match response with
    | Body.invalidUtf8 => (SendOutcome.panic "stream did not contain valid UTF-8", 0)
    | Body.text body =>
      match from_str_LastFMError body with
      | Except.ok lastm_error => (SendOutcome.err (Error.LastFMError lastm_error), 1)
      | Except.error _ =>
        match from_str_User body with
        | Except.ok user =>
          match user.top_artists with
          | some ta => (SendOutcome.ok ta, 2)
          | none => (SendOutcome.panic "called Option::unwrap on a None value", 2)
        | Except.error e => (SendOutcome.err (Error.ParsingError e), 2)
  | Except.error err => (SendOutcome.err (Error.HTTPError err), 0)

/-- The five possible kinds of a `send` outcome. -/
inductive OutcomeKind where
  | success : OutcomeKind
  | transportFailure : OutcomeKind
  | serviceError : OutcomeKind
  | parsingFailure : OutcomeKind
  | panicked : OutcomeKind
deriving DecidableEq

/-- Classify a `send` outcome. -/
def SendOutcome.kind : SendOutcome → OutcomeKind
  | SendOutcome.ok _ => OutcomeKind.success
  | SendOutcome.err (Error.LastFMError _) => OutcomeKind.serviceError
  | SendOutcome.err (Error.ParsingError _) => OutcomeKind.parsingFailure
  | SendOutcome.err (Error.HTTPError _) => OutcomeKind.transportFailure
  | SendOutcome.panic _ => OutcomeKind.panicked

/-- The exact transport outcomes on which `send` panics: a successful
response whose bytes are not valid UTF-8, or a body that is not
error-shaped and deserializes as a `User` envelope with no top-artists
substructure. -/
def panicTrigger : Except HttpErr Body → Bool
  | Except.ok Body.invalidUtf8 => true
  | Except.ok (Body.text (BodyText.notJson _)) => false
  | Except.ok (Body.text (BodyText.json j)) =>
    !isOkE (parseLastFMError j) &&
      (match parseUser j with
       | Except.ok u => u.top_artists.isNone
       | Except.error _ => false)
  | Except.error _ => false

/-- The error body of the second scenario in the spec: an envelope with
error code 6 and message `User not found`. -/
def errorBodyJson : Json :=
  Json.obj [("error", Json.num 6), ("message", Json.str "User not found")]

/-- The single artist entry of the example success JSON in the spec. -/
def exampleArtistJson : Json :=
  Json.obj
    [("@attr", Json.obj [("rank", Json.str "1")]),
     ("mbid", Json.str "..."),
     ("playcount", Json.str "..."),
     ("name", Json.str "..."),
     ("url", Json.str "..."),
     ("image", Json.arr [Json.obj [("size", Json.str "small"), ("#text", Json.str "http://...")]])]

/-- The example success JSON of the wire contract (spec section 6) for the
top-artists endpoint. -/
def exampleSuccessJson : Json :=
  Json.obj
    [("topartists",
      Json.obj
        [("artist", Json.arr [exampleArtistJson]),
         ("@attr",
          Json.obj
            [("page", Json.str "1"),
             ("total", Json.str "50"),
             ("user", Json.str "LAST.HQ"),
             ("perPage", Json.str "10"),
             ("totalPages", Json.str "5")])])]

/-- The typed payload the example success JSON deserializes to. -/
def exampleTopArtists : TopArtists :=
  ⟨[⟨⟨"1"⟩, "...", "...", "...", "...", [⟨"small", "http://..."⟩]⟩],
   ⟨"1", "50", "LAST.HQ", "10", "5"⟩⟩

/-- A mock transport that answers every request with the given body. -/
def mockClient (b : Body) : RequestSpec → Except HttpErr Body :=
  fun _ => Except.ok b

/-- A mock transport that fails every request with the given failure. -/
def failingClient (h : HttpErr) : RequestSpec → Except HttpErr Body :=
  fun _ => Except.error h

/-- The number of entries of the source `artist` list inside the success
envelope (the observation the spec compares the decoded payload against). -/
def sourceArtistCount (j : Json) : Option Nat :=
  match j with
  | Json.obj f =>
    match jLookup f "topartists" with
    | some (Json.obj g) =>
      match jLookup g "artist" with
      | some (Json.arr xs) => some xs.length
      | _ => none
    | _ => none
  | _ => none

/-- The raw attribute strings (page, total, user, perPage, totalPages) at
the `@attr` object of the success envelope, exactly as they stand in the
JSON. -/
def sourceAttrStrings (j : Json) : Option (String × String × String × String × String) :=
  match j with
  | Json.obj f =>
    match jLookup f "topartists" with
    | some (Json.obj g) =>
      match jLookup g "@attr" with
      | some (Json.obj h) =>
        match jLookup h "page", jLookup h "total", jLookup h "user",
              jLookup h "perPage", jLookup h "totalPages" with
        | some (Json.str page), some (Json.str total), some (Json.str user),
          some (Json.str perPage), some (Json.str totalPages) =>
          some (page, total, user, perPage, totalPages)
        | _, _, _, _, _ => none
      | _ => none
    | _ => none
  | _ => none

/-- The builder of the example scenario: method `user.getTopArtists`, user
`LAST.HQ`, limit 1. -/
def exampleBuilder : RequestSpec := with_limit (TopArtists.build "LAST.HQ") 1

/-- The example success JSON as a transport-successful response body. -/
def exampleBody : Body := Body.text (BodyText.json exampleSuccessJson)

/-- Deserializing a JSON array element-wise preserves the number of
entries. -/
theorem parseList_ok_length {α : Type} (p : Json → Except String α) :
    ∀ (xs : List Json) (ys : List α), parseList p xs = Except.ok ys → ys.length = xs.length := by
  intro xs
  induction xs with
  | nil => intro ys h; simp only [parseList] at h; cases h; rfl
  | cons x xs ih =>
    intro ys h
    simp only [parseList] at h
    cases hp : p x with
    | error e => rw [hp] at h; cases h
    | ok a =>
      rw [hp] at h
      cases hrest : parseList p xs with
      | error e => rw [hrest] at h; cases h
      | ok rest =>
        rw [hrest] at h
        cases h
        simp [ih rest hrest]

/-- Inversion of a successful `Attributes` parse: the source body is an
object whose five attribute fields hold exactly the decoded strings. -/
theorem parseAttributes_ok_shape :
    ∀ (j : Json) (a : Attributes), parseAttributes j = Except.ok a →
    ∃ f, j = Json.obj f ∧
      jLookup f "page" = some (Json.str a.page) ∧
      jLookup f "total" = some (Json.str a.total) ∧
      jLookup f "user" = some (Json.str a.user) ∧
      jLookup f "perPage" = some (Json.str a.per_page) ∧
      jLookup f "totalPages" = some (Json.str a.total_pages) := by
  intro j a h
  cases j <;> simp only [parseAttributes] at h <;> try exact Except.noConfusion h
  case obj f =>
    split at h <;> try exact Except.noConfusion h
    split at h <;> try exact Except.noConfusion h
    split at h <;> try exact Except.noConfusion h
    split at h <;> try exact Except.noConfusion h
    split at h <;> try exact Except.noConfusion h
    rename_i x1 page hpage x2 total htotal x3 user huser x4 perPage hper x5 totalPages htp
    cases h
    exact ⟨f, rfl, hpage, htotal, huser, hper, htp⟩

/-- Inversion of a successful `TopArtists` parse: the source body is an
object whose `artist` field is an array with as many entries as the decoded
list, and whose `@attr` field decodes to the decoded attributes. -/
theorem parseTopArtists_ok_shape :
    ∀ (j : Json) (ta : TopArtists), parseTopArtists j = Except.ok ta →
    ∃ f xs attrJ, j = Json.obj f ∧
      jLookup f "artist" = some (Json.arr xs) ∧
      parseList parseArtist xs = Except.ok ta.artists ∧
      ta.artists.length = xs.length ∧
      jLookup f "@attr" = some attrJ ∧
      parseAttributes attrJ = Except.ok ta.attrs := by
  intro j ta h
  cases j <;> simp only [parseTopArtists] at h <;> try exact Except.noConfusion h
  case obj f =>
    split at h <;> try exact Except.noConfusion h
    split at h <;> try exact Except.noConfusion h
    split at h <;> try exact Except.noConfusion h
    split at h <;> try exact Except.noConfusion h
    rename_i x1 xs hxs x2 artists hplist x3 attrJ hattr x4 attrs hpa
    cases h
    exact ⟨f, xs, attrJ, rfl, hxs, hplist, parseList_ok_length parseArtist xs artists hplist, hattr, hpa⟩

/-- Inversion of a `User` parse that produced a present top-artists
substructure: the body is an object whose `topartists` field decodes to
that substructure. -/
theorem parseUser_ok_some :
    ∀ (j : Json) (ta : TopArtists), parseUser j = Except.ok ⟨some ta⟩ →
    ∃ f sub, j = Json.obj f ∧
      jLookup f "topartists" = some sub ∧
      parseTopArtists sub = Except.ok ta := by
  intro j ta h
  cases j <;> simp only [parseUser] at h <;> try exact Except.noConfusion h
  case obj f =>
    split at h
    case _ => simp at h
    case _ => simp at h
    case _ sub hne hsub =>
      split at h <;> try exact Except.noConfusion h
      rename_i ta2 hta2
      cases h
      exact ⟨f, sub, rfl, hsub, hta2⟩

/-- Inserting the same key twice leaves only the later insertion. -/
theorem upsert_upsert (l : List (String × String)) (k v₁ v₂ : String) :
    upsert (upsert l k v₁) k v₂ = upsert l k v₂ := by
  induction l with
  | nil => simp [upsert]
  | cons p rest ih =>
    obtain ⟨k0, v0⟩ := p
    by_cases hk : k0 = k
    · subst hk; simp [upsert]
    · simp [upsert, hk, ih]

/-- Looking up a key right after inserting it yields the inserted value. -/
theorem go_upsert_self (k v : String) :
    ∀ l, getParam.go k (upsert l k v) = some v := by
  intro l
  induction l with
  | nil => simp [upsert, getParam.go]
  | cons p rest ih =>
    obtain ⟨k0, v0⟩ := p
    by_cases hk : k0 = k
    · subst hk; simp [upsert, getParam.go]
    · simp [upsert, getParam.go, hk, ih]

/-- Inserting one key does not change the lookup of a different key. -/
theorem go_upsert_other (k key v : String) (hne : k ≠ key) :
    ∀ l, getParam.go key (upsert l k v) = getParam.go key l := by
  intro l
  induction l with
  | nil => simp [upsert, getParam.go, hne]
  | cons p rest ih =>
    obtain ⟨k0, v0⟩ := p
    by_cases hk : k0 = k
    · subst hk; simp [upsert, getParam.go, hne]
    · simp [upsert, getParam.go, hk, ih]

/-- Chained setter calls only touch the `limit`, `period` and `page`
parameters: any other parameter of the pending request is preserved. -/
theorem getParam_applyCalls (key : String)
    (h1 : key ≠ "limit") (h2 : key ≠ "period") (h3 : key ≠ "page") :
    ∀ (cs : List SetterCall) (r : RequestSpec),
      getParam (applyCalls r cs) key = getParam r key := by
  intro cs
  induction cs with
  | nil => intro r; rfl
  | cons c cs ih =>
    intro r
    have hstep : getParam (applyCall r c) key = getParam r key := by
      cases c with
      | limit n =>
        simpa [applyCall, with_limit, setParam, getParam] using
          go_upsert_other "limit" key (toString n) (Ne.symm h1) r.params
      | period p =>
        simpa [applyCall, with_period, setParam, getParam] using
          go_upsert_other "period" key p.to_string (Ne.symm h2) r.params
      | page n =>
        simpa [applyCall, with_page, setParam, getParam] using
          go_upsert_other "page" key (toString n) (Ne.symm h3) r.params
    calc getParam (applyCalls r (c :: cs)) key
        = getParam (applyCalls (applyCall r c) cs) key := rfl
      _ = getParam (applyCall r c) key := ih (applyCall r c)
      _ = getParam r key := hstep

/-- Claim C1: for every transport-successful response body that parses as
the ServiceError envelope, `send` returns a service-error failure carrying
that code and message; since the error-shape parse is attempted first, this
takes priority over any coincidental match of the success shape. -/
theorem send_service_error_priority :
    ∀ (client : RequestSpec → Except HttpErr Body) (r : RequestSpec) (j : Json) (e : LastFMError),
      client r = Except.ok (Body.text (BodyText.json j)) →
      parseLastFMError j = Except.ok e →
      send client r = SendOutcome.err (Error.LastFMError e) := by
  intro client r j e hc hp
  simp [send, hc, from_str_LastFMError, hp]

/-- Witness for claim C1: the scenario body with error code 6 and message
`User not found` also parses as the success envelope, yet `send` returns
the ServiceError with code 6. -/
theorem send_service_error_priority_witness :
    parseLastFMError errorBodyJson = Except.ok ⟨6, "User not found"⟩ ∧
    isOkE (parseUser errorBodyJson) = true ∧
    send (mockClient (Body.text (BodyText.json errorBodyJson))) (with_limit (TopArtists.build "LAST.HQ") 1)
      = SendOutcome.err (Error.LastFMError ⟨6, "User not found"⟩) :=
  ⟨rfl, rfl, send_service_error_priority _ _ _ _ rfl rfl⟩

/-- Claim C2: for every transport-successful body that does not parse as
the error shape but parses as the success envelope with a present
top-artists substructure, `send` unwraps the envelope and returns the inner
substructure; its artists list has exactly as many entries as the source
`artist` array and its attrs fields are the untouched attribute strings of
the envelope. -/
theorem send_success_unwraps_envelope :
    ∀ (client : RequestSpec → Except HttpErr Body) (r : RequestSpec) (j : Json) (ta : TopArtists),
      client r = Except.ok (Body.text (BodyText.json j)) →
      isOkE (parseLastFMError j) = false →
      parseUser j = Except.ok ⟨some ta⟩ →
      send client r = SendOutcome.ok ta ∧
      sourceArtistCount j = some ta.artists.length ∧
      sourceAttrStrings j = some (ta.attrs.page, ta.attrs.total, ta.attrs.user, ta.attrs.per_page, ta.attrs.total_pages) := by
  intro client r j ta hc hne hu
  have hsend : send client r = SendOutcome.ok ta := by
    cases hE : parseLastFMError j with
    | ok e => rw [hE] at hne; simp [isOkE] at hne
    | error d => simp [send, hc, from_str_LastFMError, from_str_User, hE, hu]
  obtain ⟨f, sub, rfl, hsub, hta⟩ := parseUser_ok_some j ta hu
  obtain ⟨g, xs, attrJ, rfl, hart, hplist, hlen, hattr, hpa⟩ := parseTopArtists_ok_shape sub ta hta
  obtain ⟨hf, rfl, hpage, htotal, huser2, hper, htp⟩ := parseAttributes_ok_shape attrJ ta.attrs hpa
  refine ⟨hsend, ?_, ?_⟩
  · simp [sourceArtistCount, hsub, hart, hlen]
  · simp [sourceAttrStrings, hsub, hattr, hpage, htotal, huser2, hper, htp]

/-- Witness for claim C2: on the example success JSON, `send` returns the
unwrapped payload, its artists list length equals the source entry count,
and its attrs are the raw envelope strings. -/
theorem send_success_unwraps_envelope_witness :
    send (mockClient (Body.text (BodyText.json exampleSuccessJson))) (with_limit (TopArtists.build "LAST.HQ") 1)
      = SendOutcome.ok exampleTopArtists ∧
    sourceArtistCount exampleSuccessJson = some exampleTopArtists.artists.length ∧
    sourceAttrStrings exampleSuccessJson
      = some (exampleTopArtists.attrs.page, exampleTopArtists.attrs.total, exampleTopArtists.attrs.user,
          exampleTopArtists.attrs.per_page, exampleTopArtists.attrs.total_pages) :=
  send_success_unwraps_envelope _ _ _ _ rfl rfl rfl

/-- Claim C3 (amended): for every transport outcome and response body,
`send` either panics — exactly on the inputs `panicTrigger` describes: a
transport-successful body that is not valid UTF-8, or one that is not
error-shaped and deserializes as a user envelope with no top-artists
substructure — or returns exactly one of the four outcome kinds: success,
TransportFailure, ServiceError, ParsingFailure.  The kind is computed by
the total function `SendOutcome.kind`, so each call yields exactly one
kind and never a partial or default value. -/
theorem send_outcome_classification :
    ∀ (client : RequestSpec → Except HttpErr Body) (r : RequestSpec),
      (panicTrigger (client r) = true ∧ (send client r).kind = OutcomeKind.panicked) ∨
      (panicTrigger (client r) = false ∧
        (send client r).kind ∈ [OutcomeKind.success, OutcomeKind.transportFailure,
          OutcomeKind.serviceError, OutcomeKind.parsingFailure]) := by
  intro client r
  cases hc : client r with
  | error e =>
    right
    simp [send, panicTrigger, hc, SendOutcome.kind]
  | ok b =>
    cases b with
    | invalidUtf8 =>
      left
      simp [send, panicTrigger, hc, SendOutcome.kind]
    | text bt =>
      cases bt with
      | notJson d =>
        right
        simp [send, panicTrigger, hc, from_str_LastFMError, from_str_User, SendOutcome.kind]
      | json j =>
        cases hE : parseLastFMError j with
        | ok e =>
          right
          simp [send, panicTrigger, hc, from_str_LastFMError, hE, SendOutcome.kind, isOkE]
        | error d =>
          cases hU : parseUser j with
          | error d2 =>
            right
            simp [send, panicTrigger, hc, from_str_LastFMError, from_str_User, hE, hU,
              SendOutcome.kind, isOkE]
          | ok u =>
            obtain ⟨o⟩ := u
            cases o with
            | some ta =>
              right
              simp [send, panicTrigger, hc, from_str_LastFMError, from_str_User, hE, hU,
                SendOutcome.kind, isOkE, Option.isNone]
            | none =>
              left
              simp [send, panicTrigger, hc, from_str_LastFMError, from_str_User, hE, hU,
                SendOutcome.kind, isOkE, Option.isNone]

/-- Counterexample to claim C3 as stated: a transport-successful body that
deserializes as the user envelope without a top-artists substructure makes
`send` panic instead of returning one of the four values. -/
theorem send_no_panic_counterexample :
    parseUser (Json.obj [("user", Json.str "LAST.HQ")]) = Except.ok ⟨none⟩ ∧
    send (mockClient (Body.text (BodyText.json (Json.obj [("user", Json.str "LAST.HQ")]))))
        (TopArtists.build "LAST.HQ")
      = SendOutcome.panic "called Option::unwrap on a None value" ∧
    (send (mockClient (Body.text (BodyText.json (Json.obj [("user", Json.str "LAST.HQ")]))))
        (TopArtists.build "LAST.HQ")).kind = OutcomeKind.panicked :=
  ⟨rfl, rfl, rfl⟩

/-- Claim C4: for every transport-successful body that parses as neither
the ServiceError shape nor the success envelope, `send` returns a
ParsingFailure carrying the decode diagnostic of the success-shape parse
(never a success value, in particular never an empty payload). -/
theorem send_parsing_failure :
    ∀ (client : RequestSpec → Except HttpErr Body) (r : RequestSpec) (bt : BodyText) (d : String),
      client r = Except.ok (Body.text bt) →
      isOkE (from_str_LastFMError bt) = false →
      from_str_User bt = Except.error d →
      send client r = SendOutcome.err (Error.ParsingError d) := by
  intro client r bt d hc hne hu
  cases hE : from_str_LastFMError bt with
  | ok e => rw [hE] at hne; simp [isOkE] at hne
  | error d2 => simp [send, hc, hE, hu]

/-- Witness for claim C4: a JSON array matches neither shape, and `send`
returns the ParsingFailure carrying the underlying diagnostic. -/
theorem send_parsing_failure_witness :
    isOkE (from_str_LastFMError (BodyText.json (Json.arr []))) = false ∧
    from_str_User (BodyText.json (Json.arr [])) = Except.error "invalid type: expected struct User" ∧
    send (mockClient (Body.text (BodyText.json (Json.arr [])))) (TopArtists.build "LAST.HQ")
      = SendOutcome.err (Error.ParsingError "invalid type: expected struct User") :=
  ⟨rfl, rfl, send_parsing_failure _ _ _ _ rfl rfl rfl⟩

/-- Claim C5: for every transport failure returned by the client, `send`
returns the distinct HTTPError kind wrapping that failure, and the
instrumented resolver shows that zero JSON parse attempts are made — both
trial parses are short-circuited. -/
theorem send_transport_short_circuit :
    ∀ (client : RequestSpec → Except HttpErr Body) (r : RequestSpec) (h : HttpErr),
      client r = Except.error h →
      send client r = SendOutcome.err (Error.HTTPError h) ∧
      sendSteps client r = (SendOutcome.err (Error.HTTPError h), 0) := by
  intro client r h hc
  exact ⟨by simp [send, hc], by simp [sendSteps, hc]⟩

/-- Witness for claim C5: a client that fails with a connection error makes
`send` return HTTPError with zero parse attempts. -/
theorem send_transport_short_circuit_witness :
    send (failingClient ⟨"connection refused"⟩) (TopArtists.build "LAST.HQ")
      = SendOutcome.err (Error.HTTPError ⟨"connection refused"⟩) ∧
    sendSteps (failingClient ⟨"connection refused"⟩) (TopArtists.build "LAST.HQ")
      = (SendOutcome.err (Error.HTTPError ⟨"connection refused"⟩), 0) :=
  send_transport_short_circuit _ _ _ rfl

/-- Claim C6: every Period variant encodes to a token of the fixed set,
with the stated per-variant tokens, and the two variants `TwelveMonths` and
`OneYear` produce byte-identical tokens. -/
theorem period_to_string_tokens :
    (∀ p : Period, p.to_string ∈ ["overall", "7day", "1month", "3month", "6month", "12month"]) ∧
    Period.Overall.to_string = "overall" ∧
    Period.SevenDays.to_string = "7day" ∧
    Period.OneMonth.to_string = "1month" ∧
    Period.ThreeMonths.to_string = "3month" ∧
    Period.SixMonths.to_string = "6month" ∧
    Period.TwelveMonths.to_string = "12month" ∧
    Period.OneYear.to_string = "12month" ∧
    Period.TwelveMonths.to_string = Period.OneYear.to_string := by
  refine ⟨fun p => ?_, rfl, rfl, rfl, rfl, rfl, rfl, rfl, rfl⟩
  cases p <;> decide

/-- Claim C7: setting the same parameter key twice leaves only the later
value in the final request — the double application collapses to the single
later one, the lookup yields the later value, and likewise for each of the
typed setters `with_limit`, `with_period`, `with_page`. -/
theorem setParam_overwrites :
    ∀ (r : RequestSpec) (k v₁ v₂ : String),
      setParam (setParam r k v₁) k v₂ = setParam r k v₂ ∧
      getParam (setParam (setParam r k v₁) k v₂) k = some v₂ ∧
      (∀ (a b : Nat), with_limit (with_limit r a) b = with_limit r b) ∧
      (∀ (p q : Period), with_period (with_period r p) q = with_period r q) ∧
      (∀ (a b : Nat), with_page (with_page r a) b = with_page r b) := by
  intro r k v₁ v₂
  refine ⟨?_, ?_, ?_, ?_, ?_⟩
  · simp [setParam, upsert_upsert]
  · simpa [setParam, getParam, upsert_upsert] using go_upsert_self k v₂ r.params
  · intro a b; simp [with_limit, setParam, upsert_upsert]
  · intro p q; simp [with_period, setParam, upsert_upsert]
  · intro a b; simp [with_page, setParam, upsert_upsert]

/-- Claim C8: `send` on a builder configured with method
`user.getTopArtists`, user `LAST.HQ` and limit 1, against a mock transport
returning the example success JSON, yields a payload with exactly one
artist entry bearing the mocked name, and attrs total equal to the string
50. -/
theorem send_example_scenario :
    getParam exampleBuilder "method" = some "user.getTopArtists" ∧
    getParam exampleBuilder "user" = some "LAST.HQ" ∧
    getParam exampleBuilder "limit" = some "1" ∧
    send (mockClient exampleBody) exampleBuilder = SendOutcome.ok exampleTopArtists ∧
    exampleTopArtists.artists.length = 1 ∧
    exampleTopArtists.artists.map Artist.name = ["..."] ∧
    exampleTopArtists.attrs.total = "50" :=
  ⟨rfl, rfl, rfl, rfl, rfl, rfl, rfl⟩

/-- Claim C9: the remote method name and the mandatory user identifier are
fixed into the request at construction, and no chain of setter calls
(`with_limit`, `with_period`, `with_page`) changes them: in the final
request both components are exactly the ones given at creation. -/
theorem build_fixes_method_and_user :
    ∀ (user : String) (cs : List SetterCall),
      getParam (applyCalls (TopArtists.build user) cs) "method" = some "user.getTopArtists" ∧
      getParam (applyCalls (TopArtists.build user) cs) "user" = some user := by
  intro user cs
  constructor
  · rw [getParam_applyCalls "method" (by decide) (by decide) (by decide) cs (TopArtists.build user)]
    rfl
  · rw [getParam_applyCalls "user" (by decide) (by decide) (by decide) cs (TopArtists.build user)]
    rfl

/-- Claim C10: there are transport-successful responses on which `send`
panics instead of returning a result: a body that deserializes as the user
envelope with no top-artists substructure reaches the `unwrap` of a `None`
option, and a body whose bytes are not valid UTF-8 reaches the `unwrap` of
the string read. -/
theorem send_panics_on_missing_substructure :
    parseUser (Json.obj []) = Except.ok ⟨none⟩ ∧
    send (mockClient (Body.text (BodyText.json (Json.obj [])))) (TopArtists.build "LAST.HQ")
      = SendOutcome.panic "called Option::unwrap on a None value" ∧
    send (mockClient Body.invalidUtf8) (TopArtists.build "LAST.HQ")
      = SendOutcome.panic "stream did not contain valid UTF-8" :=
  ⟨rfl, rfl, rfl⟩

end LastfmRs
